import Mathlib

set_option maxRecDepth 100000

/-!
Verification of the GoNoGo fix-loop core against its specification.

This file gives a shallow embedding, in Lean 4, of the parts of the
repository that the specification's claims are about:

* `backend/services/report_feed.py` — severity filtering of Report A and
  the findings delta engine (`filter_report_by_severity`,
  `generate_delta_report`);
* `backend/services/git_manager.py` — fix-branch creation
  (`GitManager.create_fix_branch`) and its suffix search;
* `backend/services/deploy_manager.py` — the three-tier deploy-URL
  detection heuristic (`DeployManager.detect_deploy_url`);
* `backend/services/claude_code.py` — the status determination of
  `ClaudeCodeRunner._parse_output`;
* `backend/scanner/fix_loop.py` — the per-cycle orchestration of
  `FixLoopOrchestrator.run`, its stop condition, `advance` and
  `request_stop`.

Python strings are embedded as `List Char` where character-level regex
behaviour matters (report filtering, URL detection) and as `String`
elsewhere.  Machine floats that no claim depends on (costs, durations)
are abstracted as `Nat`; timestamps are abstracted as a Boolean
"`completed_at` was set" flag.  External effects (subprocesses, HTTP,
database commits) are modelled as oracle inputs per cycle, and records
carry the full sequence of statuses ever assigned to them so that
status-transition claims can be stated.
-/

namespace GoNoGo

/-! ### Findings delta engine — `backend/services/report_feed.py`, `generate_delta_report` (lines 92-136)

A finding, as consumed by the delta engine: a stable `id` plus metadata
used only for display (`Finding` dicts in Python).  The engine compares
strictly by `id`.
-/

structure Finding where
  id : String
  severity : String
deriving DecidableEq, Repr

/-- The set of ids of a findings list (`{f["id"] for f in findings}`). -/
def findingIds (findings : List Finding) : Finset String :=
  (findings.map Finding.id).toFinset

/-- Result of `generate_delta_report`.  The Python function returns the
`resolved` / `new` / `unchanged` lists by enumerating exactly these id
sets through the `previous_map` / `current_map` dictionaries (set
iteration order is unspecified), and the `*_count` fields are the
lengths of those lists, i.e. the cardinalities of the id sets. -/
structure DeltaReport where
  resolvedIds : Finset String
  newIds : Finset String
  unchangedIds : Finset String
  resolvedCount : Nat
  newCount : Nat
  unchangedCount : Nat
deriving DecidableEq

/-- `generate_delta_report(current_findings, previous_findings)`:
`resolved_ids = previous_ids - current_ids`,
`new_ids = current_ids - previous_ids`,
`unchanged_ids = current_ids & previous_ids`. -/
def generate_delta_report (currentFindings previousFindings : List Finding) :
    DeltaReport :=
  let currentIds := findingIds currentFindings
  let previousIds := findingIds previousFindings
  let resolvedIds := previousIds \ currentIds
  let newIds := currentIds \ previousIds
  let unchangedIds := currentIds ∩ previousIds
  { resolvedIds := resolvedIds
    newIds := newIds
    unchangedIds := unchangedIds
    resolvedCount := resolvedIds.card
    newCount := newIds.card
    unchangedCount := unchangedIds.card }

/-! ### Report filtering — `backend/services/report_feed.py`, `filter_report_by_severity` (lines 11-62)

The Python function works on raw markdown strings with `re` patterns; we
embed it at the character level (`List Char`).  The section pattern
`## <SEV> ...\n(.*?)(?=\n---|\Z)` with `re.DOTALL` is equivalent to:
find the first occurrence of the literal section heading, then capture
from just after it up to (not including) the first later occurrence of
`"\n---"`, or to the end of the string if there is none (the lazy
capture stops at the first position where the lookahead succeeds). -/

/-- Python `\s` on the ASCII range (`str.strip` / `str.upper` in the
source only ever see ASCII whitespace here). -/
def pyIsSpace (c : Char) : Bool :=
  c == ' ' || c == '\t' || c == '\n' || c == '\r' ||
    c == Char.ofNat 11 || c == Char.ofNat 12

/-- Python `str.lstrip()`. -/
def lstripChars (s : List Char) : List Char := s.dropWhile pyIsSpace

/-- Python `str.rstrip()`. -/
def rstripChars (s : List Char) : List Char :=
  (s.reverse.dropWhile pyIsSpace).reverse

/-- Python `str.strip()`. -/
def stripChars (s : List Char) : List Char := lstripChars (rstripChars s)

/-- Python `str.upper()` (per-character on ASCII). -/
def upperChars (s : List Char) : List Char := s.map Char.toUpper

/-- Split a string at the FIRST occurrence of `pat`, returning the text
before the occurrence and the text after it (Python
`content.split(pat, 1)` when it finds a separator); `none` when `pat`
does not occur. -/
def splitFirst (pat : List Char) : List Char → Option (List Char × List Char)
  | [] => if pat.isEmpty then some ([], []) else none
  | c :: rest =>
    if pat.isPrefixOf (c :: rest) then some ([], (c :: rest).drop pat.length)
    else
      match splitFirst pat rest with
      | some (pre, post) => some (c :: pre, post)
      | none => none

/-- `re.search(lit + "(.*?)(?=\n---|\Z)", s, re.DOTALL)`: the capture
group of the leftmost match, i.e. from just after the first occurrence
of `lit` up to the first subsequent `"\n---"` (or the end). -/
def captureSection (lit s : List Char) : Option (List Char) :=
  (splitFirst lit s).map fun p =>
    match splitFirst ("\n---".toList) p.2 with
    | some q => q.1
    | none => p.2

/-- The fixed iteration order `["CRITICAL", "HIGH", "MEDIUM", "LOW"]` of
`filter_report_by_severity` (report_feed.py line 49). -/
def severityNames : List (List Char) :=
  ["CRITICAL".toList, "HIGH".toList, "MEDIUM".toList, "LOW".toList]

/-- The `section_patterns` dict (report_feed.py lines 38-43): the literal
part of each severity section pattern. -/
def sectionLiteralFor (sev : List Char) : List Char :=
  if sev == "CRITICAL".toList then "## CRITICAL — Fix Before Launch\n".toList
  else if sev == "HIGH".toList then "## HIGH PRIORITY\n".toList
  else if sev == "MEDIUM".toList then "## MEDIUM PRIORITY\n".toList
  else "## LOW PRIORITY\n".toList

/-- The section heading re-emitted into the filtered output
(report_feed.py line 54): the full heading for CRITICAL, and the
shortened `## <SEV>` for the other severities. -/
def sectionHeaderFor (sev : List Char) : List Char :=
  if sev == "CRITICAL".toList then "## CRITICAL — Fix Before Launch".toList
  else "## ".toList ++ sev

/-- `"\n\n---\n\n".join(filtered_sections)`. -/
def joinSections : List (List Char) → List Char
  | [] => []
  | [s] => s
  | s :: rest => s ++ "\n\n---\n\n".toList ++ joinSections rest

/-- `filter_report_by_severity(report_a_path, severities)` applied to the
file's content (file IO elided; the Python function reads the whole file
and works on the string). -/
def filter_report_by_severity (content : List Char)
    (severities : List (List Char)) : List Char :=
  let severitiesNormalized := severities.map upperChars
  match splitFirst ("---".toList) content with
  | none => content
  | some (header, body) =>
    let fullContent := header ++ "---".toList ++ body
    let filteredSections := severityNames.filterMap fun sev =>
      if severitiesNormalized.contains sev then
        (captureSection (sectionLiteralFor sev) fullContent).map fun cap =>
          sectionHeaderFor sev ++ ['\n'] ++ stripChars cap
      else none
    if filteredSections.isEmpty then header
    else header ++ "---\n\n".toList ++ joinSections filteredSections ++ ['\n']

/-! ### Branch creation — `backend/services/git_manager.py`, `GitManager.create_fix_branch` (lines 135-196)

The git subprocess calls are abstracted into a `RepoState`:
`is_git_repo` (rev-parse --git-dir), `_has_uncommitted_changes`
(diff --quiet + status --porcelain), and `_branch_exists`
(rev-parse --verify refs/heads/<b>) become fields/lookup, and
`checkout -b` is the successful return.  Error classes keep their source
names; the exhaustion case raises `BranchExistsError` with the
distinctive "All branch names …" message (git_manager.py line 186). -/

/-- `FIX_BRANCH_PREFIX` (backend/config.py line 41, default value). -/
def fixBranchPrefixVal : String := "gonogo/fix-"

inductive GitErr where
  | notAGitRepo (repoPath : String)
  | dirtyWorkingTree (repoPath : String)
  | branchExists (message : String)
deriving DecidableEq

/-- Abstraction of the repository state consulted by `create_fix_branch`. -/
structure RepoState where
  isRepo : Bool
  dirty : Bool
  branches : List String
deriving DecidableEq

/-- The message of the `BranchExistsError` raised when suffixes `-2` …
`-99` are exhausted (git_manager.py line 186). -/
def branchExhaustedMessage (base : String) : String :=
  "All branch names " ++ base ++ "-2 through " ++ base ++ "-99 exist"

/-- The `for suffix in range(2, 100)` search (git_manager.py lines
177-182): starting at suffix `k` with `fuel` suffixes left to try,
return the first candidate `base-k` that does not exist, else `none`
(the loop's `else:` clause). -/
def findAvailableSuffix (branches : List String) (base : String) :
    Nat → Nat → Option String
  | _, 0 => none
  | k, fuel + 1 =>
    let candidate := base ++ "-" ++ toString k
    if branches.contains candidate then
      findAvailableSuffix branches base (k + 1) fuel
    else some candidate

/-- `GitManager.create_fix_branch(repo_path, scan_id, auto_suffix)`.
The recording of the original branch (lines 163-166) mutates only the
manager's cleanup bookkeeping and is elided. -/
def create_fix_branch (repo : RepoState) (repoPath scanId : String)
    (autoSuffix : Bool) : Except GitErr String :=
  if !repo.isRepo then .error (.notAGitRepo repoPath)
  else if repo.dirty then .error (.dirtyWorkingTree repoPath)
  else
    let baseBranchName := fixBranchPrefixVal ++ scanId.take 8
    if repo.branches.contains baseBranchName then
      if !autoSuffix then
        .error (.branchExists ("Branch \x27" ++ baseBranchName ++ "\x27 already exists"))
      else
        match findAvailableSuffix repo.branches baseBranchName 2 98 with
        | some candidate => .ok candidate
        | none => .error (.branchExists (branchExhaustedMessage baseBranchName))
    else .ok baseBranchName

/-! ### Deploy URL detection — `backend/services/deploy_manager.py`, `DeployManager.detect_deploy_url` (lines 262-310)

Three tiers over the lines of the (stripped) output:
1. lines where a known prefix (`URL_PREFIXES`, case-insensitive) is
   followed by optional whitespace and an `https://` URL;
2. lines matching one of the hard-coded hosting-provider patterns
   (`URL_PATTERNS[:-1]`, case-sensitive);
3. lines shorter than 200 characters containing a bare `https://` URL
   that passes a domain-shape validation.
Each regex is embedded as a dedicated matcher with `re.search` leftmost
semantics; greedy `+` with backtracking is implemented where the
character class overlaps the following literal. -/

/-- `firstSome f l`: the first `some` produced by `f` over `l` in order
(the `for … : if match: return …` loop shape). -/
def firstSome {α β : Type} (f : α → Option β) : List α → Option β
  | [] => none
  | a :: rest =>
    match f a with
    | some b => some b
    | none => firstSome f rest

/-- Python `str.split("\n")`. -/
def splitOnNl : List Char → List (List Char)
  | [] => [[]]
  | c :: rest =>
    if c == '\n' then [] :: splitOnNl rest
    else
      match splitOnNl rest with
      | [] => [[c]]
      | l :: ls => (c :: l) :: ls

/-- `str.rstrip(".,;:\"')")` applied to a detected URL
(deploy_manager.py lines 286, 295, 305). -/
def isTrailingPunct (c : Char) : Bool :=
  c == '.' || c == ',' || c == ';' || c == ':' || c == '"' ||
    c == Char.ofNat 39 || c == ')'

def rstripPunct (s : List Char) : List Char :=
  (s.reverse.dropWhile isTrailingPunct).reverse

/-- Case-insensitive prefix test (for the `re.IGNORECASE` prefix tier). -/
def startsWithCI (pat s : List Char) : Bool :=
  (pat.map Char.toLower).isPrefixOf (s.map Char.toLower)

/-- `URL_PREFIXES` (deploy_manager.py lines 73-82): the literal part of
each `<word>:\s*` pattern, in source order. -/
def URL_PREFIXES : List (List Char) :=
  ["Preview:".toList, "URL:".toList, "Deploy URL:".toList,
   "Deployed to:".toList, "Live at:".toList, "Available at:".toList,
   "Inspect:".toList, "Website:".toList]

/-- `re.search(w + "\s*(https://[^\s]+)", line, re.IGNORECASE)`: scan for
the leftmost position where the literal `w` occurs (case-insensitively),
followed by a whitespace run and then `https://` plus at least one more
non-whitespace character; return the capture group `https://[^\s]+`
(greedy, original case). -/
def findPrefixedUrl (w : List Char) : List Char → Option (List Char)
  | [] => none
  | c :: rest =>
    if startsWithCI w (c :: rest) then
      let afterW := (c :: rest).drop w.length
      let afterSpace := afterW.dropWhile pyIsSpace
      let urlRun := afterSpace.takeWhile (fun ch => !pyIsSpace ch)
      if startsWithCI ("https://".toList) afterSpace && urlRun.length > 8 then
        some urlRun
      else findPrefixedUrl w rest
    else findPrefixedUrl w rest

/-- First pass (deploy_manager.py lines 279-287): known prefixes, first
matching line wins, prefixes tried in source order within a line. -/
def detectTier1 (lines : List (List Char)) : Option (List Char) :=
  firstSome (fun line =>
    let ls := stripChars line
    (firstSome (fun w => findPrefixedUrl w ls) URL_PREFIXES).map rstripPunct)
    lines

/-- The character class `[a-zA-Z0-9-]` of the hosting-provider patterns. -/
def isSubdomainChar (c : Char) : Bool := c.isAlpha || c.isDigit || c == '-'

/-- Greedy `+` with backtracking: try the longest non-empty `cls`-run
prefix of `s` first, then shorter ones, feeding the remainder to the
continuation `k`; on success return run ++ continuation result. -/
def backtrackRunAux (cls : Char → Bool) (k : List Char → Option (List Char))
    (s : List Char) : Nat → Option (List Char)
  | 0 => none
  | len + 1 =>
    match k (s.drop (len + 1)) with
    | some t => some (s.take (len + 1) ++ t)
    | none => backtrackRunAux cls k s len

def backtrackRun (cls : Char → Bool) (k : List Char → Option (List Char))
    (s : List Char) : Option (List Char) :=
  backtrackRunAux cls k s (s.takeWhile cls).length

/-- Match `https://[a-zA-Z0-9-]+<sfx>` anchored at the start of `s`,
returning the matched text (`match.group(0)`).  The suffix begins with
`.` which is outside the class, so greedy matching needs no
backtracking here. -/
def matchSingleDomainAt (sfx : List Char) (s : List Char) : Option (List Char) :=
  if ("https://".toList).isPrefixOf s then
    let rest := s.drop 8
    let run := rest.takeWhile isSubdomainChar
    if run.isEmpty then none
    else if sfx.isPrefixOf (rest.drop run.length) then
      some ("https://".toList ++ run ++ sfx)
    else none
  else none

/-- Match `https://[a-zA-Z0-9-]+--[a-zA-Z0-9-]+\.netlify\.app` anchored
at the start of `s` (the Netlify deploy-preview pattern,
deploy_manager.py line 55); `-` is inside the class so the greedy `+`
needs genuine backtracking. -/
def matchNetlifyDoubleAt (s : List Char) : Option (List Char) :=
  if ("https://".toList).isPrefixOf s then
    (backtrackRun isSubdomainChar
      (fun r1 =>
        if ("--".toList).isPrefixOf r1 then
          (backtrackRun isSubdomainChar
            (fun r2 =>
              if (".netlify.app".toList).isPrefixOf r2 then
                some (".netlify.app".toList)
              else none)
            (r1.drop 2)).map (fun t => "--".toList ++ t)
        else none)
      (s.drop 8)).map (fun t => "https://".toList ++ t)
  else none

/-- The matchers for `URL_PATTERNS[:-1]` (deploy_manager.py lines 50-69,
excluding the final generic pattern), in source order. -/
def URL_PATTERN_MATCHERS : List (List Char → Option (List Char)) :=
  [matchSingleDomainAt (".vercel.app".toList),
   matchSingleDomainAt (".netlify.app".toList),
   matchNetlifyDoubleAt,
   matchSingleDomainAt (".railway.app".toList),
   matchSingleDomainAt (".onrender.com".toList),
   matchSingleDomainAt (".fly.dev".toList),
   matchSingleDomainAt (".pages.dev".toList),
   matchSingleDomainAt (".amplifyapp.com".toList),
   matchSingleDomainAt (".herokuapp.com".toList)]

/-- `re.search` leftmost semantics for an anchored matcher: try each
start position left to right. -/
def searchAt (m : List Char → Option (List Char)) : List Char → Option (List Char)
  | [] => none
  | c :: rest =>
    match m (c :: rest) with
    | some r => some r
    | none => searchAt m rest

/-- Second pass (deploy_manager.py lines 290-296): hosting-provider
domain patterns. -/
def detectTier2 (lines : List (List Char)) : Option (List Char) :=
  firstSome (fun line =>
    let ls := stripChars line
    (firstSome (fun m => searchAt m ls) URL_PATTERN_MATCHERS).map rstripPunct)
    lines

/-- Anchored match of `https://[a-zA-Z0-9][^\s]+` (`match.group(0)`):
`https://`, an alphanumeric character, then at least one further
non-whitespace character, greedily to the first whitespace. -/
def matchBareUrlAt (s : List Char) : Option (List Char) :=
  if ("https://".toList).isPrefixOf s then
    match s.drop 8 with
    | d :: tail =>
      let run := tail.takeWhile (fun ch => !pyIsSpace ch)
      if (d.isAlpha || d.isDigit) && !run.isEmpty then
        some ("https://".toList ++ [d] ++ run)
      else none
    | [] => none
  else none

/-- `re.match(r"https://[a-zA-Z0-9][a-zA-Z0-9.-]+\.[a-zA-Z]{2,}", url)`
(deploy_manager.py line 307): a prefix of `url` must decompose as
`https://`, an alphanumeric, a non-empty `[a-zA-Z0-9.-]` run, a dot, and
at least two letters; `.` and `-` are inside the run's class, so the
split is found by backtracking. -/
def isDomainRunChar (c : Char) : Bool :=
  c.isAlpha || c.isDigit || c == '.' || c == '-'

def validBareUrl (url : List Char) : Bool :=
  if ("https://".toList).isPrefixOf url then
    match url.drop 8 with
    | d :: tail =>
      (d.isAlpha || d.isDigit) &&
        (backtrackRun isDomainRunChar
          (fun r =>
            match r with
            | '.' :: cs =>
              if 2 ≤ (cs.takeWhile Char.isAlpha).length then some [] else none
            | _ => none)
          tail).isSome
    | [] => false
  else false

/-- Third pass (deploy_manager.py lines 299-308): a bare `https://` URL
on a line shorter than 200 characters, validated for domain shape; a
line whose URL fails validation yields nothing and scanning moves to the
next line. -/
def detectTier3 (lines : List (List Char)) : Option (List Char) :=
  firstSome (fun line =>
    let ls := stripChars line
    if ls.length < 200 then
      match searchAt matchBareUrlAt ls with
      | some u =>
        let url := rstripPunct u
        if validBareUrl url then some url else none
      | none => none
    else none)
    lines

/-- `DeployManager.detect_deploy_url(stdout)`: empty input yields
nothing; otherwise the three passes are applied in strict order over
`stdout.strip().split("\n")` and the first match wins. -/
def detect_deploy_url (stdout : List Char) : Option (List Char) :=
  if stdout.isEmpty then none
  else
    let lines := splitOnNl (stripChars stdout)
    match detectTier1 lines with
    | some url => some url
    | none =>
      match detectTier2 lines with
      | some url => some url
      | none => detectTier3 lines

/-! ### Fix-agent output parsing — `backend/services/claude_code.py`, `ClaudeCodeRunner._parse_output` (lines 243-288)

After successful JSON decoding, the result status is determined solely
from `is_error` and `subtype` (lines 269-274): it is `"error"` or
`"success"` — `_parse_output` has no other outcome, and `run_fixes`
only adds `"timeout"` and `"error"` on its own paths. -/

/-- Status determination of `_parse_output` (claude_code.py lines
269-274). -/
def parseOutputStatus (isError : Bool) (subtype : String) : String :=
  if isError || subtype == "error" then "error" else "success"

/-! ### Fix-loop orchestration — `backend/scanner/fix_loop.py`, `FixLoopOrchestrator.run` (lines 175-543)

The per-cycle body (lines 249-523) is embedded as a pure function of
the cycle's external outcomes, bundled in `CycleInputs`:
the fix-agent run (`ClaudeCodeRunner.run_fixes`), the commit attempt,
the deploy subprocess (`DeployManager.trigger_deploy`), URL
reachability, and the rescan.  Database commits become record updates;
progress broadcasts carry no state and are elided; `datetime.now`
timestamps are abstracted to the Boolean `completedAtSet`.  The
`current_report_path` variable only feeds `prepare_feed`, whose output
in turn only feeds the fix agent — both are absorbed into the
agent-outcome oracle.  Each record carries `statusTrace`: the sequence
of every value assigned to `fix_cycle.status`, in program order,
starting with the `"fixing"` it is created with (line 267). -/

/-- The relevant fields of `FixLoopStartRequest` as used by `run`. -/
structure FixLoopConfigM where
  applyMode : String
  deployMode : String
  deployCommand : Option String
  maxCycles : Nat
  stopOnVerdict : String
  severityFilter : List String
deriving DecidableEq

/-- `ClaudeCodeResult` (claude_code.py lines 21-31); floats abstracted
to `Nat`, fields unused by the orchestrator's control flow elided. -/
structure ClaudeCodeResultM where
  status : String
  costUsd : Nat
  errorMessage : Option String
deriving DecidableEq

/-- Outcome of the `claude_code_runner.run_fixes` call at fix_loop.py
lines 292-314: either one of the two exception types, or a result. -/
inductive AgentOutcome where
  | notInstalled (msg : String)
  | authError (msg : String)
  | result (r : ClaudeCodeResultM)
deriving DecidableEq

/-- `DeployResult` (deploy_manager.py lines 17-25); floats elided. -/
structure DeployResultM where
  status : String
  stdout : String
  stderr : String
  deployUrl : Option String
  errorCode : Option String
deriving DecidableEq

/-- The rescan `Scan` row as read back at fix_loop.py lines 438-477. -/
structure ScanRecM where
  status : String
  overallScore : Option Nat
  verdict : Option String
  findingsCount : Option Nat
deriving DecidableEq

/-- Outcome of `_run_rescan` (fix_loop.py lines 422-438): an exception,
or a rescan id together with the row the follow-up query finds (`none`
models `rescan` not found). -/
inductive RescanOutcome where
  | raised (msg : String)
  | returned (rescanId : String) (rescan : Option ScanRecM)
deriving DecidableEq

/-- The external outcomes of one cycle.  `prepareException` models an
unclassified exception at the first step inside the `try` block
(`prepare_feed`, fix_loop.py line 280), caught by the outer handler at
line 515.  `commitRaises` and `urlReachable` only influence broadcasts
and are carried for shape. -/
structure CycleInputs where
  prepareException : Option String
  agent : AgentOutcome
  commitRaises : Bool
  deploy : DeployResultM
  manualUrl : Option String
  urlReachable : Bool
  rescan : RescanOutcome
deriving DecidableEq

/-- The persisted `FixCycle` row (models.py lines 73-95) as written by
the orchestrator, plus the `statusTrace` embedding artefact. -/
structure FixCycleRec where
  cycleNumber : Nat
  status : String
  statusTrace : List String
  errorMessage : Option String
  completedAtSet : Bool
  rescanId : Option String
  findingsResolved : Nat
  findingsNew : Nat
  findingsUnchanged : Nat
  costUsd : Nat
deriving DecidableEq

/-- One assignment `fix_cycle.status = s`, also appended to the trace. -/
def setStatus (r : FixCycleRec) (s : String) : FixCycleRec :=
  { r with status := s, statusTrace := r.statusTrace ++ [s] }

/-- How one iteration of the `for cycle_number …` loop ends:
`raisedOut` = an exception propagates (loop aborts), `breakOut` =
`break`, `nextCycle` = `continue` or normal fall-through. -/
inductive CycleExit where
  | raisedOut
  | breakOut
  | nextCycle
deriving DecidableEq

/-- Result of one cycle body: the persisted record, how the iteration
ended, and the loop variables it updates (`previous_findings`,
`final_verdict`). -/
structure CycleResult where
  record : FixCycleRec
  exit : CycleExit
  newPrevFindings : List Finding
  newFinalVerdict : String
deriving DecidableEq

/-- `_extract_findings_from_scan` (fix_loop.py lines 159-173): the body
is literally `return []`. -/
def extract_findings_from_scan (_scan : ScanRecM) : List Finding := []

/-- The stop condition of fix_loop.py lines 497-513 as a predicate on
(`stop_on_verdict`, `final_verdict`): the `break` at line 505 or the
`break` at line 513. -/
def stopConditionMet (stopOnVerdict finalVerdict : String) : Bool :=
  !(stopOnVerdict == "never") &&
    (finalVerdict == stopOnVerdict ||
      (stopOnVerdict == "GO_WITH_CONDITIONS" && finalVerdict == "GO"))

/-- `_handle_deploy` (fix_loop.py lines 545-597): `local` mode and a
missing/empty deploy command return a success carrying the original
URL; `manual` mode waits for `advance` and returns the user-supplied
URL (`inp.manualUrl` models `self._manual_deploy_url` at the moment the
wait is released); otherwise the result of the deploy subprocess is the
oracle `inp.deploy`. -/
def handleDeploy (cfg : FixLoopConfigM) (inp : CycleInputs)
    (originalUrl : String) : DeployResultM :=
  if cfg.deployMode == "local" then
    { status := "success", stdout := "", stderr := "",
      deployUrl := some originalUrl, errorCode := none }
  else if cfg.deployMode == "manual" then
    { status := "success", stdout := "", stderr := "",
      deployUrl := inp.manualUrl, errorCode := none }
  else if (cfg.deployCommand.getD "") == "" then
    { status := "success", stdout := "No deploy command configured",
      stderr := "", deployUrl := some originalUrl, errorCode := none }
  else inp.deploy

/-- Steps c-g of the cycle body (fix_loop.py lines 350-513), shared by
the `budget_exceeded` branch (which falls through at line 336) and the
success branch: commit (non-fatal, no record effect), deploy, wait for
URL, rescan, delta, mark complete, stop condition. -/
def runCycleFromCommit (cfg : FixLoopConfigM) (prevFindings : List Finding)
    (finalVerdict : String) (inp : CycleInputs) (originalUrl : String)
    (fc : FixCycleRec) : CycleResult :=
  -- Step d (line 373): status "deploying"
  let fc := setStatus fc "deploying"
  let deployResult := handleDeploy cfg inp originalUrl
  if deployResult.status == "deploy_failed" || deployResult.status == "failed" then
    -- lines 378-395
    let errorDetail :=
      if deployResult.stderr == "" then "Unknown error"
      else deployResult.stderr.take 500
    let fc := setStatus fc "deploy_failed"
    let fc := { fc with
      errorMessage := some ("Deploy failed (" ++ deployResult.errorCode.getD "UNKNOWN"
        ++ "): " ++ errorDetail),
      completedAtSet := true }
    ⟨fc, .breakOut, prevFindings, finalVerdict⟩
  else
    -- Step e (lines 397-411) only logs a warning; Step f (line 419):
    let fc := setStatus fc "rescanning"
    match inp.rescan with
    | .raised e =>
      -- lines 425-435: mark rescan_failed and `continue`
      let fc := setStatus fc "rescan_failed"
      let fc := { fc with
        errorMessage := some ("Rescan failed: " ++ e), completedAtSet := true }
      ⟨fc, .nextCycle, prevFindings, finalVerdict⟩
    | .returned rescanId rescanRow =>
      let fc := { fc with rescanId := some rescanId }
      match rescanRow with
      | some rescan =>
        if rescan.status == "completed" then
          -- lines 439-463
          let newVerdict := rescan.verdict.getD "UNKNOWN"
          let currentFindings := extract_findings_from_scan rescan
          let delta := generate_delta_report currentFindings prevFindings
          let fc := { fc with
            findingsResolved := delta.resolvedCount,
            findingsNew := delta.newCount,
            findingsUnchanged := delta.unchangedCount }
          -- lines 492-495: mark cycle complete
          let fc := setStatus fc "completed"
          let fc := { fc with completedAtSet := true }
          -- Step g (lines 497-513), with the fresh verdict
          if stopConditionMet cfg.stopOnVerdict newVerdict then
            ⟨fc, .breakOut, currentFindings, newVerdict⟩
          else
            ⟨fc, .nextCycle, currentFindings, newVerdict⟩
        else
          -- lines 464-490: rescan exists but did not complete
          let fc := setStatus fc "rescan_failed"
          let fc := { fc with
            errorMessage := some ("Rescan status: " ++ rescan.status) }
          let fc :=
            match rescan.overallScore with
            | some _ => { fc with findingsUnchanged := rescan.findingsCount.getD 0 }
            | none => fc
          let fc := { fc with completedAtSet := true }
          -- lines 492-495 run unconditionally: the record is re-marked
          -- "completed" right after being marked "rescan_failed"
          let fc := setStatus fc "completed"
          let fc := { fc with completedAtSet := true }
          -- Step g runs with the STALE final_verdict (not updated here)
          if stopConditionMet cfg.stopOnVerdict finalVerdict then
            ⟨fc, .breakOut, prevFindings, finalVerdict⟩
          else
            ⟨fc, .nextCycle, prevFindings, finalVerdict⟩
      | none =>
        -- `rescan` row not found: rescan_status = "not_found" (line 466)
        let fc := setStatus fc "rescan_failed"
        let fc := { fc with
          errorMessage := some "Rescan status: not_found" }
        let fc := { fc with completedAtSet := true }
        let fc := setStatus fc "completed"
        let fc := { fc with completedAtSet := true }
        if stopConditionMet cfg.stopOnVerdict finalVerdict then
          ⟨fc, .breakOut, prevFindings, finalVerdict⟩
        else
          ⟨fc, .nextCycle, prevFindings, finalVerdict⟩

/-- One iteration of the cycle loop (fix_loop.py lines 262-523), given
its external outcomes.  A `ClaudeCodeNotInstalledError` /
`ClaudeCodeAuthError` is marked `failed` by the inner handler (lines
299-314) and again by the outer handler at line 515 when the re-raise
passes through it, hence the doubled `"failed"` in the trace. -/
def runCycle (cfg : FixLoopConfigM) (cycleNumber : Nat)
    (prevFindings : List Finding) (finalVerdict : String)
    (inp : CycleInputs) (originalUrl : String) : CycleResult :=
  let rec0 : FixCycleRec :=
    { cycleNumber := cycleNumber, status := "fixing",
      statusTrace := ["fixing"], errorMessage := none,
      completedAtSet := false, rescanId := none,
      findingsResolved := 0, findingsNew := 0, findingsUnchanged := 0,
      costUsd := 0 }
  match inp.prepareException with
  | some e =>
    -- outer handler, lines 515-523: mark failed and re-raise
    let fc := setStatus rec0 "failed"
    let fc := { fc with errorMessage := some e, completedAtSet := true }
    ⟨fc, .raisedOut, prevFindings, finalVerdict⟩
  | none =>
    match inp.agent with
    | .notInstalled msg =>
      let fc := setStatus rec0 "failed"
      let fc := { fc with errorMessage := some msg, completedAtSet := true }
      let fc := setStatus fc "failed"
      let fc := { fc with errorMessage := some msg, completedAtSet := true }
      ⟨fc, .raisedOut, prevFindings, finalVerdict⟩
    | .authError msg =>
      let fc := setStatus rec0 "failed"
      let fc := { fc with errorMessage := some msg, completedAtSet := true }
      let fc := setStatus fc "failed"
      let fc := { fc with errorMessage := some msg, completedAtSet := true }
      ⟨fc, .raisedOut, prevFindings, finalVerdict⟩
    | .result r =>
      -- lines 316-322: record the agent result fields
      let rec1 := { rec0 with costUsd := r.costUsd }
      if r.status == "budget_exceeded" then
        -- lines 325-336: mark budget_exceeded, then FALL THROUGH to deploy
        let rec2 := setStatus rec1 "budget_exceeded"
        let rec2 := { rec2 with
          errorMessage := r.errorMessage, completedAtSet := true }
        runCycleFromCommit cfg prevFindings finalVerdict inp originalUrl rec2
      else if !(r.status == "success") then
        -- lines 337-348: mark failed and break
        let fallback := match r.errorMessage with
          | some m => if m == "" then "Claude Code failed" else m
          | none => "Claude Code failed"
        let rec2 := setStatus rec1 "failed"
        let rec2 := { rec2 with
          errorMessage := some fallback, completedAtSet := true }
        ⟨rec2, .breakOut, prevFindings, finalVerdict⟩
      else
        runCycleFromCommit cfg prevFindings finalVerdict inp originalUrl rec1

/-- How the whole loop ends: the `for` range is exhausted, the
`stop_requested` check at line 251 fired, a `break`, or a propagated
exception. -/
inductive LoopExit where
  | finishedMax
  | stoppedByRequest
  | brokeOut
  | raisedOut
deriving DecidableEq

/-- The cycle loop from cycle `n` with `fuel` iterations left
(fix_loop.py lines 249-523).  `stopFlag n` is the value of
`self.stop_requested` observed at the boundary check (line 251) before
cycle `n`; the cycle body takes no stop flag — the source never reads
`stop_requested` inside a cycle. -/
def runFrom (cfg : FixLoopConfigM) (inputs : Nat → CycleInputs)
    (stopFlag : Nat → Bool) (originalUrl : String) :
    Nat → Nat → List Finding → String → List FixCycleRec × LoopExit
  | _, 0, _, _ => ([], .finishedMax)
  | n, fuel + 1, prevFindings, finalVerdict =>
    if stopFlag n then ([], .stoppedByRequest)
    else
      let c := runCycle cfg n prevFindings finalVerdict (inputs n) originalUrl
      match c.exit with
      | .raisedOut => ([c.record], .raisedOut)
      | .breakOut => ([c.record], .brokeOut)
      | .nextCycle =>
        let rest := runFrom cfg inputs stopFlag originalUrl (n + 1) fuel
          c.newPrevFindings c.newFinalVerdict
        (c.record :: rest.1, rest.2)

/-- The full loop: cycles 1 … `max_cycles`, starting with
`previous_findings = []` (line 240) and `final_verdict` = the original
scan's verdict or `"UNKNOWN"` (line 244). -/
def runLoop (cfg : FixLoopConfigM) (inputs : Nat → CycleInputs)
    (stopFlag : Nat → Bool) (originalUrl originalVerdict : String) :
    List FixCycleRec × LoopExit :=
  runFrom cfg inputs stopFlag originalUrl 1 cfg.maxCycles [] originalVerdict

/-- The statuses that are terminal for a cycle record (spec §4.5; the
loop never writes to a record after its iteration ends). -/
def terminalCycleStatuses : List String :=
  ["completed", "failed", "deploy_failed", "rescan_failed", "budget_exceeded"]

/-! ### `request_stop` and `advance` — fix_loop.py lines 562-577, 622-643

`request_stop` (lines 633-643) sets `self.stop_requested = True`; the
stop-flag state is embedded on its own.  `advance` (lines 622-631)
raises `FixLoopError("Not waiting for deploy URL")` exactly when
`self._deploy_url_event is None`; otherwise it stores the URL and sets
the event.  `_handle_deploy` in manual mode (lines 562-577) creates a
fresh unset event and awaits it; after the wait is released the event
field is NEVER reset to `None`, so it remains a set event for the rest
of the loop. -/

/-- The stop-request state of the orchestrator. -/
structure StopState where
  stopRequested : Bool
deriving DecidableEq

/-- `request_stop` (fix_loop.py line 638). -/
def request_stop (s : StopState) : StopState :=
  { s with stopRequested := true }

/-- The manual-deploy control state: `deployUrlEvent = none` models
`self._deploy_url_event is None`; `some b` models an `asyncio.Event`
whose set-flag is `b`.  `manualDeployUrl` is `self._manual_deploy_url`. -/
structure ManualDeployCtl where
  deployUrlEvent : Option Bool
  manualDeployUrl : Option String
deriving DecidableEq

/-- The state in which the loop is blocked awaiting a manual deploy URL:
`_handle_deploy` created the event (`some false`) and is suspended in
`await self._deploy_url_event.wait()` (fix_loop.py line 570). -/
def awaitingDeployUrl (s : ManualDeployCtl) : Prop :=
  s.deployUrlEvent = some false

/-- `_handle_deploy` entering manual mode (fix_loop.py line 569):
`self._deploy_url_event = asyncio.Event()`. -/
def beginManualWait (s : ManualDeployCtl) : ManualDeployCtl :=
  { s with deployUrlEvent := some false }

/-- `advance(deploy_url)` (fix_loop.py lines 622-631). -/
def advance (s : ManualDeployCtl) (deployUrl : String) :
    Except String ManualDeployCtl :=
  match s.deployUrlEvent with
  | none => .error "Not waiting for deploy URL"
  | some _ =>
    .ok { deployUrlEvent := some true, manualDeployUrl := some deployUrl }

/-! ### Concrete scenarios used in the theorems below -/

/-- A cycle input whose rescan returned a row in status `"completed"`
(used to state claims about cycles with a completed rescan). -/
def rescanCompleted (inp : CycleInputs) : Prop :=
  ∃ rid s, inp.rescan = .returned rid (some s) ∧ s.status = "completed"

/-- A representative loop configuration: branch apply mode, branch
deploy mode with a deploy command, 3 cycles, stop on `GO`. -/
def sampleCfg : FixLoopConfigM :=
  { applyMode := "branch", deployMode := "branch",
    deployCommand := some "vercel deploy --branch current",
    maxCycles := 3, stopOnVerdict := "GO",
    severityFilter := ["critical", "high"] }

/-- A successful deploy-command result. -/
def sampleDeploySuccess : DeployResultM :=
  { status := "success", stdout := "Preview: https://x.vercel.app",
    stderr := "", deployUrl := some "https://x.vercel.app",
    errorCode := none }

/-- A successful fix-agent result. -/
def sampleAgentSuccess : AgentOutcome :=
  .result { status := "success", costUsd := 2, errorMessage := none }

/-- A rescan row that exists but did not reach `"completed"`, with a
partial score present. -/
def rescanRowIncomplete : ScanRecM :=
  { status := "failed", overallScore := some 40, verdict := none,
    findingsCount := some 7 }

/-- A rescan row that completed with verdict `NO-GO`. -/
def rescanRowCompleted : ScanRecM :=
  { status := "completed", overallScore := some 80,
    verdict := some "NO-GO", findingsCount := some 3 }

/-- A rescan row that completed with verdict `GO`. -/
def rescanRowGo : ScanRecM :=
  { status := "completed", overallScore := some 95,
    verdict := some "GO", findingsCount := some 0 }

/-- A rescan row that completed with verdict `GO_WITH_CONDITIONS`. -/
def rescanRowGoWithConditions : ScanRecM :=
  { status := "completed", overallScore := some 85,
    verdict := some "GO_WITH_CONDITIONS", findingsCount := some 1 }

/-- Cycle inputs: agent succeeds, deploy succeeds, the rescan record
exists but is not in status `"completed"` (the C1 scenario). -/
def cycleInputsRescanIncomplete : CycleInputs :=
  { prepareException := none, agent := sampleAgentSuccess,
    commitRaises := false, deploy := sampleDeploySuccess,
    manualUrl := none, urlReachable := true,
    rescan := .returned "rescan-1" (some rescanRowIncomplete) }

/-- Cycle inputs: the fix-agent run ends with status
`"budget_exceeded"`, deploy succeeds, rescan completes (the C2
scenario). -/
def cycleInputsBudget : CycleInputs :=
  { prepareException := none,
    agent := .result ⟨"budget_exceeded", 5, some "Budget exceeded"⟩,
    commitRaises := false, deploy := sampleDeploySuccess,
    manualUrl := none, urlReachable := true,
    rescan := .returned "rescan-2" (some rescanRowCompleted) }

/-- Cycle inputs: everything succeeds and the rescan completes with
verdict `GO`. -/
def cycleInputsVerdictGO : CycleInputs :=
  { prepareException := none, agent := sampleAgentSuccess,
    commitRaises := false, deploy := sampleDeploySuccess,
    manualUrl := none, urlReachable := true,
    rescan := .returned "rescan-3" (some rescanRowGo) }

/-- Cycle inputs: everything succeeds and the rescan completes with
verdict `GO_WITH_CONDITIONS`. -/
def cycleInputsVerdictGWC : CycleInputs :=
  { prepareException := none, agent := sampleAgentSuccess,
    commitRaises := false, deploy := sampleDeploySuccess,
    manualUrl := none, urlReachable := true,
    rescan := .returned "rescan-4" (some rescanRowGoWithConditions) }

/-- The configuration of the spec's better-than-target example:
`stopOnVerdict = "GO_WITH_CONDITIONS"`. -/
def cfgStopGWC : FixLoopConfigM :=
  { sampleCfg with stopOnVerdict := "GO_WITH_CONDITIONS" }

/-- The first cycle record of a loop whose every cycle hits the budget
cap and then rescans successfully. -/
def sampleBudgetFirstRecord : FixCycleRec :=
  (runCycle sampleCfg 1 [] "NO-GO" cycleInputsBudget
    "https://app.example.com").record

/-! ## Theorems -/

/-- Claim C9: `diff` compares strictly by finding id and returns
`resolved = B − A`, `new = A − B`, `unchanged = A ∩ B` as id-sets, so
that `resolved ∪ unchanged = B`, `new ∪ unchanged = A`, the three sets
are pairwise disjoint, and each reported count is the cardinality of
its set (here `A` is the current findings, `B` the previous). -/
theorem claim_C9 (current previous : List Finding) :
    (generate_delta_report current previous).resolvedIds
        = findingIds previous \ findingIds current
    ∧ (generate_delta_report current previous).newIds
        = findingIds current \ findingIds previous
    ∧ (generate_delta_report current previous).unchangedIds
        = findingIds current ∩ findingIds previous
    ∧ (generate_delta_report current previous).resolvedIds
        ∪ (generate_delta_report current previous).unchangedIds
        = findingIds previous
    ∧ (generate_delta_report current previous).newIds
        ∪ (generate_delta_report current previous).unchangedIds
        = findingIds current
    ∧ Disjoint (generate_delta_report current previous).resolvedIds
        (generate_delta_report current previous).newIds
    ∧ Disjoint (generate_delta_report current previous).resolvedIds
        (generate_delta_report current previous).unchangedIds
    ∧ Disjoint (generate_delta_report current previous).newIds
        (generate_delta_report current previous).unchangedIds
    ∧ (generate_delta_report current previous).resolvedCount
        = (generate_delta_report current previous).resolvedIds.card
    ∧ (generate_delta_report current previous).newCount
        = (generate_delta_report current previous).newIds.card
    ∧ (generate_delta_report current previous).unchangedCount
        = (generate_delta_report current previous).unchangedIds.card := by
  refine ⟨rfl, rfl, rfl, ?_, ?_, ?_, ?_, ?_, rfl, rfl, rfl⟩
  · show findingIds previous \ findingIds current
      ∪ findingIds current ∩ findingIds previous = findingIds previous
    rw [Finset.inter_comm]
    exact Finset.sdiff_union_inter _ _
  · show findingIds current \ findingIds previous
      ∪ findingIds current ∩ findingIds previous = findingIds current
    exact Finset.sdiff_union_inter _ _
  · show Disjoint (findingIds previous \ findingIds current)
      (findingIds current \ findingIds previous)
    rw [Finset.disjoint_left]
    intro a ha hb
    rw [Finset.mem_sdiff] at ha hb
    exact ha.2 hb.1
  · show Disjoint (findingIds previous \ findingIds current)
      (findingIds current ∩ findingIds previous)
    rw [Finset.disjoint_left]
    intro a ha hb
    rw [Finset.mem_sdiff] at ha
    rw [Finset.mem_inter] at hb
    exact ha.2 hb.1
  · show Disjoint (findingIds current \ findingIds previous)
      (findingIds current ∩ findingIds previous)
    rw [Finset.disjoint_left]
    intro a ha hb
    rw [Finset.mem_sdiff] at ha
    rw [Finset.mem_inter] at hb
    exact ha.2 hb.2

/-- Claim C1 (evaluation at the failing input): for a cycle whose agent
and deploy succeed but whose rescan record exists in status `"failed"`
(not `"completed"`), the orchestrator first marks the record
`rescan_failed` and then — because the mark-complete block at
fix_loop.py lines 492-495 sits outside the if/else — overwrites the
status to `"completed"`; the record does NOT keep `rescan_failed`, the
status transition goes backwards out of a terminal state, though the
loop does continue to the next cycle. -/
theorem claim_C1_code_eval :
    (runCycle sampleCfg 1 [] "NO-GO" cycleInputsRescanIncomplete
        "https://app.example.com").record.statusTrace
      = ["fixing", "deploying", "rescanning", "rescan_failed", "completed"]
    ∧ (runCycle sampleCfg 1 [] "NO-GO" cycleInputsRescanIncomplete
        "https://app.example.com").record.status = "completed"
    ∧ ¬ (runCycle sampleCfg 1 [] "NO-GO" cycleInputsRescanIncomplete
        "https://app.example.com").record.status = "rescan_failed"
    ∧ (runCycle sampleCfg 1 [] "NO-GO" cycleInputsRescanIncomplete
        "https://app.example.com").exit = CycleExit.nextCycle := by
  decide

/-- Claim C2 (evaluation at the failing input): a cycle whose fix-agent
run ends with status `"budget_exceeded"` does proceed to the deploy and
rescan steps, but its final persisted status is `"completed"`, not
`"budget_exceeded"` — the terminal status written at fix_loop.py line
327 is overwritten by the phase writes at lines 373, 419 and 493.
Moreover `ClaudeCodeRunner._parse_output` can only ever produce status
`"error"` or `"success"`, so the `budget_exceeded` branch is unreachable
from the real runner. -/
theorem claim_C2_code_eval :
    ((runCycle sampleCfg 1 [] "NO-GO" cycleInputsBudget
        "https://app.example.com").record.statusTrace
      = ["fixing", "budget_exceeded", "deploying", "rescanning", "completed"]
    ∧ (runCycle sampleCfg 1 [] "NO-GO" cycleInputsBudget
        "https://app.example.com").record.status = "completed"
    ∧ ¬ (runCycle sampleCfg 1 [] "NO-GO" cycleInputsBudget
        "https://app.example.com").record.status = "budget_exceeded")
    ∧ ∀ (isError : Bool) (subtype : String),
        parseOutputStatus isError subtype = "error"
        ∨ parseOutputStatus isError subtype = "success" := by
  refine ⟨by decide, fun isError st => ?_⟩
  unfold parseOutputStatus
  by_cases h : (isError || st == "error") = true
  · rw [if_pos h]; exact Or.inl rfl
  · rw [if_neg h]; exact Or.inr rfl

/-- Claim C3 counterexample: `filterBySeverity` is NOT idempotent — a
report with a HIGH section filtered by `{high}` re-emits the section
under the shortened heading `## HIGH`, which the pattern
`## HIGH PRIORITY\n` no longer matches, so filtering the result again
by the same severity set changes it (it drops the section). -/
theorem claim_C3_counterexample :
    filter_report_by_severity
        (filter_report_by_severity
          ("HDR\n---\n## HIGH PRIORITY\nBroken link issue\n".toList)
          ["high".toList])
        ["high".toList]
      ≠ filter_report_by_severity
          ("HDR\n---\n## HIGH PRIORITY\nBroken link issue\n".toList)
          ["high".toList] := by
  decide

/-- Claim C3 (amended): `filterBySeverity` is invariant under the
membership (hence order) of the severities argument; it is not
idempotent — re-filtering the high-only filtered report by `{high}`
returns only the header, because high/medium/low sections are re-emitted
under shortened headings the section patterns no longer match; and
filtering by all severities returns all matching sections in canonical
severity order (critical, high, medium, low) regardless of their order
in the input report (here the input has HIGH before CRITICAL). -/
theorem claim_C3_amended (content : List Char) (sevs sevs' : List (List Char))
    (h : ∀ x, (sevs.map upperChars).contains x
      = (sevs'.map upperChars).contains x) :
    filter_report_by_severity content sevs
      = filter_report_by_severity content sevs'
    ∧ filter_report_by_severity
        (filter_report_by_severity
          ("HDR\n---\n## HIGH PRIORITY\nBroken link issue\n".toList)
          ["high".toList])
        ["high".toList]
      = "HDR\n".toList
    ∧ filter_report_by_severity
        ("HDR\n---\n## HIGH PRIORITY\nhigh body\n---\n## CRITICAL — Fix Before Launch\ncrit body\n".toList)
        ["low".toList, "high".toList, "critical".toList, "medium".toList]
      = ("HDR\n---\n\n## CRITICAL — Fix Before Launch\ncrit body\n\n---\n\n## HIGH\nhigh body\n".toList) := by
  refine ⟨?_, by decide, by decide⟩
  unfold filter_report_by_severity
  simp only [h]

/-- Claim C3 witness: the membership-invariance part applied at a
concrete report and two severity lists with equal normalizations. -/
theorem claim_C3_witness :
    filter_report_by_severity
        ("HDR\n---\n## HIGH PRIORITY\nhigh body\n---\n## CRITICAL — Fix Before Launch\ncrit body\n".toList)
        ["critical".toList, "high".toList]
      = filter_report_by_severity
        ("HDR\n---\n## HIGH PRIORITY\nhigh body\n---\n## CRITICAL — Fix Before Launch\ncrit body\n".toList)
        ["Critical".toList, "HIGH".toList] :=
  (claim_C3_amended _ _ _ (fun _ => rfl)).1

/-- Claim C6 counterexample: `advance` does NOT fail in every state in
which the loop is not blocked awaiting a URL.  After the first manual
wait has been released (`deployUrlEvent = some true` — the event is
never reset to `None`, fix_loop.py lines 569-577), the loop is no
longer awaiting, yet `advance` succeeds silently. -/
theorem claim_C6_counterexample :
    advance (beginManualWait ⟨none, none⟩) "https://one.example.com"
      = Except.ok ⟨some true, some "https://one.example.com"⟩
    ∧ ¬ awaitingDeployUrl ⟨some true, some "https://one.example.com"⟩
    ∧ advance ⟨some true, some "https://one.example.com"⟩
        "https://two.example.com"
      = Except.ok ⟨some true, some "https://two.example.com"⟩ := by
  refine ⟨rfl, ?_, rfl⟩
  intro hcontra
  exact Option.noConfusion hcontra (fun h => Bool.noConfusion h)

/-- Claim C6 (amended): `advance(deployUrl)` fails with
`NotAwaitingUrl` exactly when no manual-deploy wait has ever been
created in the loop (the event field is `None`); once a wait has been
created it always succeeds — even between waits when the loop is not
blocked — and while the loop is blocked awaiting a URL it succeeds and
unblocks the deploy step with the supplied URL. -/
theorem claim_C6_amended (s : ManualDeployCtl) (url : String) :
    ((∃ e, advance s url = Except.error e) ↔ s.deployUrlEvent = none)
    ∧ (advance s url = Except.error "Not waiting for deploy URL"
        ∨ advance s url = Except.ok ⟨some true, some url⟩)
    ∧ (awaitingDeployUrl s →
        advance s url = Except.ok ⟨some true, some url⟩) := by
  rcases s with ⟨ev, mu⟩
  cases ev
  · refine ⟨⟨fun _ => rfl, fun _ => ⟨_, rfl⟩⟩, Or.inl rfl, fun hw => ?_⟩
    exact absurd hw (by intro hcontra; exact Option.noConfusion hcontra)
  · refine ⟨⟨?_, ?_⟩, Or.inr rfl, fun _ => rfl⟩
    · rintro ⟨e, he⟩
      exact Except.noConfusion he
    · intro hcontra
      exact Option.noConfusion hcontra

/-- Claim C6 witness: the amended behaviour applied at the blocked
state created by entering the manual wait. -/
theorem claim_C6_witness :
    advance (beginManualWait ⟨none, none⟩) "https://w.example.com"
      = Except.ok ⟨some true, some "https://w.example.com"⟩ :=
  (claim_C6_amended (beginManualWait ⟨none, none⟩) "https://w.example.com").2.2
    rfl

/-- Claim C7: `detect_deploy_url` tries its three tiers strictly in
order — known prefixes, hosting-provider domain patterns, bare URL on a
short line — returning the first match and never merging tiers; and on
the output `"Website: https://foo.vercel.app\nOther text
https://bar.com"` it returns `https://foo.vercel.app` (the prefix tier
wins over the bare-URL tier). -/
theorem claim_C7 (out u : List Char) (hne : out ≠ []) :
    (detectTier1 (splitOnNl (stripChars out)) = some u →
      detect_deploy_url out = some u)
    ∧ (detectTier1 (splitOnNl (stripChars out)) = none →
        detectTier2 (splitOnNl (stripChars out)) = some u →
        detect_deploy_url out = some u)
    ∧ (detectTier1 (splitOnNl (stripChars out)) = none →
        detectTier2 (splitOnNl (stripChars out)) = none →
        detect_deploy_url out = detectTier3 (splitOnNl (stripChars out)))
    ∧ detect_deploy_url
        ("Website: https://foo.vercel.app\nOther text https://bar.com".toList)
      = some ("https://foo.vercel.app".toList) := by
  have hput : out.isEmpty = false := by
    cases out
    · exact absurd rfl hne
    · rfl
  refine ⟨fun h1 => ?_, fun h1 h2 => ?_, fun h1 h2 => ?_, by decide⟩
  · unfold detect_deploy_url
    rw [hput]
    simp only [Bool.false_eq_true, if_false, h1]
  · unfold detect_deploy_url
    rw [hput]
    simp only [Bool.false_eq_true, if_false, h1, h2]
  · unfold detect_deploy_url
    rw [hput]
    simp only [Bool.false_eq_true, if_false, h1, h2]

/-- Claim C7 witness: tier-1 precedence applied at the spec's example
output. -/
theorem claim_C7_witness :
    detect_deploy_url
        ("Website: https://foo.vercel.app\nOther text https://bar.com".toList)
      = some ("https://foo.vercel.app".toList) :=
  (claim_C7 ("Website: https://foo.vercel.app\nOther text https://bar.com".toList)
      ("https://foo.vercel.app".toList) (by decide)).1 (by decide)

/-- Key lemma for the suffix loop of `create_fix_branch`: if every
suffix from `k` up to (but excluding) `m` is taken, `m` is free, and
`m` is within the fuel window, the search returns `base-m`. -/
theorem findAvailableSuffix_eq_some (branches : List String) (base : String)
    (fuel : Nat) :
    ∀ k m, k ≤ m → m < k + fuel →
      (∀ j, k ≤ j → j < m →
        branches.contains (base ++ "-" ++ toString j) = true) →
      branches.contains (base ++ "-" ++ toString m) = false →
      findAvailableSuffix branches base k fuel
        = some (base ++ "-" ++ toString m) := by
  induction fuel with
  | zero =>
    intro k m h1 h2 _ _
    omega
  | succ f ih =>
    intro k m h1 h2 hall hm
    unfold findAvailableSuffix
    by_cases hk : branches.contains (base ++ "-" ++ toString k) = true
    · simp only [hk, if_true]
      exact ih (k + 1) m
        (by
          have hkm : k ≠ m := by
            intro e
            rw [e, hm] at hk
            exact Bool.noConfusion hk
          omega)
        (by omega) (fun j hj1 hj2 => hall j (by omega) hj2) hm
    · rw [Bool.not_eq_true] at hk
      simp only [hk, Bool.false_eq_true, if_false]
      have hkm : k = m := by
        by_contra hne
        have hlt : k < m := by omega
        rw [hall k le_rfl hlt] at hk
        exact Bool.noConfusion hk
      rw [hkm]

/-- Key lemma for the suffix loop: if every suffix in the fuel window is
taken, the search fails. -/
theorem findAvailableSuffix_eq_none (branches : List String) (base : String)
    (fuel : Nat) :
    ∀ k, (∀ j, k ≤ j → j < k + fuel →
        branches.contains (base ++ "-" ++ toString j) = true) →
      findAvailableSuffix branches base k fuel = none := by
  induction fuel with
  | zero => intro k _; rfl
  | succ f ih =>
    intro k hall
    unfold findAvailableSuffix
    simp only [hall k le_rfl (by omega), if_true]
    exact ih (k + 1) fun j hj1 hj2 => hall j (by omega) (by omega)

/-- Claim C5: on a clean git repository, `create_fix_branch` names the
branch `<prefix><first 8 chars of the target id>`; when that exact name
exists it returns the name with the smallest unused suffix `-2`, `-3`,
…; and when the base name and every suffix up to `-99` exist it fails
with the branch-exhaustion error (raised before any branch is
created). -/
theorem claim_C5 (repo : RepoState) (repoPath scanId : String)
    (hrepo : repo.isRepo = true) (hclean : repo.dirty = false) :
    (repo.branches.contains (fixBranchPrefixVal ++ scanId.take 8) = false →
      create_fix_branch repo repoPath scanId true
        = Except.ok (fixBranchPrefixVal ++ scanId.take 8))
    ∧ (∀ k, 2 ≤ k → k ≤ 99 →
        repo.branches.contains (fixBranchPrefixVal ++ scanId.take 8) = true →
        repo.branches.contains
          (fixBranchPrefixVal ++ scanId.take 8 ++ "-" ++ toString k) = false →
        (∀ j, 2 ≤ j → j < k →
          repo.branches.contains
            (fixBranchPrefixVal ++ scanId.take 8 ++ "-" ++ toString j) = true) →
        create_fix_branch repo repoPath scanId true
          = Except.ok (fixBranchPrefixVal ++ scanId.take 8 ++ "-" ++ toString k))
    ∧ (repo.branches.contains (fixBranchPrefixVal ++ scanId.take 8) = true →
        (∀ k, 2 ≤ k → k ≤ 99 →
          repo.branches.contains
            (fixBranchPrefixVal ++ scanId.take 8 ++ "-" ++ toString k) = true) →
        create_fix_branch repo repoPath scanId true
          = Except.error (GitErr.branchExists
              (branchExhaustedMessage (fixBranchPrefixVal ++ scanId.take 8)))) := by
  refine ⟨fun hfree => ?_, fun k hk2 hk99 hbase hkfree hall => ?_,
    fun hbase hall => ?_⟩
  · unfold create_fix_branch
    simp only [hrepo, hclean, hfree, Bool.not_true, Bool.false_eq_true,
      if_false]
  · unfold create_fix_branch
    simp only [hrepo, hclean, hbase, Bool.not_true, Bool.false_eq_true,
      if_false, if_true]
    rw [findAvailableSuffix_eq_some repo.branches _ 98 2 k hk2 (by omega)
      (fun j hj1 hj2 => hall j hj1 hj2) hkfree]
  · unfold create_fix_branch
    simp only [hrepo, hclean, hbase, Bool.not_true, Bool.false_eq_true,
      if_false, if_true]
    rw [findAvailableSuffix_eq_none repo.branches _ 98 2
      (fun j hj1 hj2 => hall j hj1 (by omega))]

/-- Claim C5 witness: a repository where `gonogo/fix-abcd1234` already
exists produces `gonogo/fix-abcd1234-2`. -/
theorem claim_C5_witness :
    create_fix_branch
        { isRepo := true, dirty := false,
          branches := ["main", "gonogo/fix-abcd1234"] }
        "/repo" "abcd1234-target" true
      = Except.ok "gonogo/fix-abcd1234-2" :=
  (claim_C5
      { isRepo := true, dirty := false,
        branches := ["main", "gonogo/fix-abcd1234"] }
      "/repo" "abcd1234-target" rfl rfl).2.1 2 (by omega) (by omega)
    (by decide) (by decide) (by omega)

/-- The stop condition as a proposition: the code's Boolean test at
fix_loop.py lines 498-513 holds iff `stop_on_verdict` is not `"never"`
and the verdict equals it, or it is `"GO_WITH_CONDITIONS"` and the
verdict is the strictly better `"GO"`. -/
theorem stopConditionMet_iff (stopOnVerdict finalVerdict : String) :
    stopConditionMet stopOnVerdict finalVerdict = true
      ↔ (stopOnVerdict ≠ "never"
          ∧ (finalVerdict = stopOnVerdict
            ∨ (stopOnVerdict = "GO_WITH_CONDITIONS" ∧ finalVerdict = "GO"))) := by
  unfold stopConditionMet
  rw [Bool.and_eq_true, Bool.or_eq_true, Bool.and_eq_true]
  rw [Bool.not_eq_true', beq_eq_false_iff_ne, beq_iff_eq, beq_iff_eq,
    beq_iff_eq]

/-- The cycle body never changes the record's cycle number (steps c-g). -/
theorem runCycleFromCommit_record_cycleNumber (cfg : FixLoopConfigM)
    (prev : List Finding) (fv : String) (inp : CycleInputs) (u : String)
    (fc : FixCycleRec) :
    (runCycleFromCommit cfg prev fv inp u fc).record.cycleNumber
      = fc.cycleNumber := by
  unfold runCycleFromCommit setStatus
  dsimp only
  repeat' split
  all_goals rfl

/-- The record produced by cycle `n` carries cycle number `n`. -/
theorem runCycle_record_cycleNumber (cfg : FixLoopConfigM) (n : Nat)
    (prev : List Finding) (fv : String) (inp : CycleInputs) (u : String) :
    (runCycle cfg n prev fv inp u).record.cycleNumber = n := by
  unfold runCycle setStatus
  dsimp only
  repeat' split
  all_goals first
    | rfl
    | (rw [runCycleFromCommit_record_cycleNumber])

/-- Steps c-g always leave the record in a terminal status:
`deploy_failed`, `rescan_failed` or `completed`. -/
theorem runCycleFromCommit_record_terminal (cfg : FixLoopConfigM)
    (prev : List Finding) (fv : String) (inp : CycleInputs) (u : String)
    (fc : FixCycleRec) :
    (runCycleFromCommit cfg prev fv inp u fc).record.status
      ∈ terminalCycleStatuses := by
  unfold runCycleFromCommit setStatus
  dsimp only
  repeat' split
  all_goals simp [terminalCycleStatuses]

/-- Every completed cycle body leaves its record in a terminal status. -/
theorem runCycle_record_terminal (cfg : FixLoopConfigM) (n : Nat)
    (prev : List Finding) (fv : String) (inp : CycleInputs) (u : String) :
    (runCycle cfg n prev fv inp u).record.status ∈ terminalCycleStatuses := by
  unfold runCycle setStatus
  dsimp only
  repeat' split
  all_goals first
    | (apply runCycleFromCommit_record_terminal)
    | simp [terminalCycleStatuses]

/-- Unfolding equation: the loop with no fuel left. -/
theorem runFrom_zero (cfg : FixLoopConfigM) (inputs : Nat → CycleInputs)
    (stopFlag : Nat → Bool) (u : String) (n : Nat) (prev : List Finding)
    (fv : String) :
    runFrom cfg inputs stopFlag u n 0 prev fv = ([], .finishedMax) := rfl

/-- Unfolding equation: the boundary check observes the stop flag. -/
theorem runFrom_succ_stop (cfg : FixLoopConfigM) (inputs : Nat → CycleInputs)
    (stopFlag : Nat → Bool) (u : String) (n fuel : Nat) (prev : List Finding)
    (fv : String) (h : stopFlag n = true) :
    runFrom cfg inputs stopFlag u n (fuel + 1) prev fv
      = ([], .stoppedByRequest) := by
  unfold runFrom
  simp only [h, if_true]

/-- Unfolding equation: a cycle is run when the stop flag is unset. -/
theorem runFrom_succ_go (cfg : FixLoopConfigM) (inputs : Nat → CycleInputs)
    (stopFlag : Nat → Bool) (u : String) (n fuel : Nat) (prev : List Finding)
    (fv : String) (h : stopFlag n = false) :
    runFrom cfg inputs stopFlag u n (fuel + 1) prev fv
      = (match (runCycle cfg n prev fv (inputs n) u).exit with
        | .raisedOut => ([(runCycle cfg n prev fv (inputs n) u).record],
            LoopExit.raisedOut)
        | .breakOut => ([(runCycle cfg n prev fv (inputs n) u).record],
            LoopExit.brokeOut)
        | .nextCycle =>
          ((runCycle cfg n prev fv (inputs n) u).record ::
            (runFrom cfg inputs stopFlag u (n + 1) fuel
              (runCycle cfg n prev fv (inputs n) u).newPrevFindings
              (runCycle cfg n prev fv (inputs n) u).newFinalVerdict).1,
            (runFrom cfg inputs stopFlag u (n + 1) fuel
              (runCycle cfg n prev fv (inputs n) u).newPrevFindings
              (runCycle cfg n prev fv (inputs n) u).newFinalVerdict).2)) := by
  conv_lhs => unfold runFrom
  simp only [h, Bool.false_eq_true, if_false]

/-- Records produced from cycle `n` onward have cycle numbers `≥ n`. -/
theorem runFrom_cycleNumber_ge (cfg : FixLoopConfigM)
    (inputs : Nat → CycleInputs) (stopFlag : Nat → Bool) (u : String) :
    ∀ fuel n prev fv r,
      r ∈ (runFrom cfg inputs stopFlag u n fuel prev fv).1 →
      n ≤ r.cycleNumber := by
  intro fuel
  induction fuel with
  | zero =>
    intro n prev fv r hr
    rw [runFrom_zero] at hr
    exact absurd hr (List.not_mem_nil r)
  | succ f ih =>
    intro n prev fv r hr
    by_cases hs : stopFlag n = true
    · rw [runFrom_succ_stop cfg inputs stopFlag u n f prev fv hs] at hr
      exact absurd hr (List.not_mem_nil r)
    · rw [Bool.not_eq_true] at hs
      rw [runFrom_succ_go cfg inputs stopFlag u n f prev fv hs] at hr
      cases hex : (runCycle cfg n prev fv (inputs n) u).exit
      all_goals rw [hex] at hr
      · rw [List.mem_singleton] at hr
        rw [hr, runCycle_record_cycleNumber]
      · rw [List.mem_singleton] at hr
        rw [hr, runCycle_record_cycleNumber]
      · rw [List.mem_cons] at hr
        rcases hr with hr | hr
        · rw [hr, runCycle_record_cycleNumber]
        · exact le_trans (by omega) (ih (n + 1) _ _ r hr)

/-- Every record the loop ever persists is left in a terminal status. -/
theorem runFrom_records_terminal (cfg : FixLoopConfigM)
    (inputs : Nat → CycleInputs) (stopFlag : Nat → Bool) (u : String) :
    ∀ fuel n prev fv r,
      r ∈ (runFrom cfg inputs stopFlag u n fuel prev fv).1 →
      r.status ∈ terminalCycleStatuses := by
  intro fuel
  induction fuel with
  | zero =>
    intro n prev fv r hr
    rw [runFrom_zero] at hr
    exact absurd hr (List.not_mem_nil r)
  | succ f ih =>
    intro n prev fv r hr
    by_cases hs : stopFlag n = true
    · rw [runFrom_succ_stop cfg inputs stopFlag u n f prev fv hs] at hr
      exact absurd hr (List.not_mem_nil r)
    · rw [Bool.not_eq_true] at hs
      rw [runFrom_succ_go cfg inputs stopFlag u n f prev fv hs] at hr
      cases hex : (runCycle cfg n prev fv (inputs n) u).exit
      all_goals rw [hex] at hr
      · rw [List.mem_singleton] at hr
        rw [hr]
        exact runCycle_record_terminal cfg n prev fv (inputs n) u
      · rw [List.mem_singleton] at hr
        rw [hr]
        exact runCycle_record_terminal cfg n prev fv (inputs n) u
      · rw [List.mem_cons] at hr
        rcases hr with hr | hr
        · rw [hr]
          exact runCycle_record_terminal cfg n prev fv (inputs n) u
        · exact ih (n + 1) _ _ r hr

/-- A stop flag raised during cycle `k` (observed at every boundary
after cycle `k`) produces exactly the records of the unstopped run
restricted to cycles `≤ k`: the boundary check is the only place the
flag is read. -/
theorem runFrom_stopFlag_filter (cfg : FixLoopConfigM)
    (inputs : Nat → CycleInputs) (u : String) (k : Nat) :
    ∀ fuel n prev fv,
      (runFrom cfg inputs (fun i => decide (k < i)) u n fuel prev fv).1
        = ((runFrom cfg inputs (fun _ => false) u n fuel prev fv).1).filter
            (fun r => decide (r.cycleNumber ≤ k)) := by
  intro fuel
  induction fuel with
  | zero =>
    intro n prev fv
    rw [runFrom_zero, runFrom_zero]
    rfl
  | succ f ih =>
    intro n prev fv
    by_cases hk : k < n
    · have hflag : (fun i => decide (k < i)) n = true := by
        simp only [decide_eq_true_eq]
        exact hk
      rw [runFrom_succ_stop cfg inputs _ u n f prev fv hflag]
      symm
      rw [List.filter_eq_nil_iff]
      intro a ha
      have hge := runFrom_cycleNumber_ge cfg inputs (fun _ => false) u
        (f + 1) n prev fv a ha
      simp only [decide_eq_true_eq]
      omega
    · have hflag : (fun i => decide (k < i)) n = false := by
        simp only [decide_eq_false_iff_not]
        exact hk
      have hnk : n ≤ k := by omega
      rw [runFrom_succ_go cfg inputs _ u n f prev fv hflag,
        runFrom_succ_go cfg inputs (fun _ => false) u n f prev fv rfl]
      cases hex : (runCycle cfg n prev fv (inputs n) u).exit
      all_goals simp only [hex]
      · rw [List.filter_cons]
        simp only [runCycle_record_cycleNumber, List.filter_nil]
        rw [if_pos (by simp only [decide_eq_true_eq]; omega)]
      · rw [List.filter_cons]
        simp only [runCycle_record_cycleNumber, List.filter_nil]
        rw [if_pos (by simp only [decide_eq_true_eq]; omega)]
      · rw [List.filter_cons]
        simp only [runCycle_record_cycleNumber]
        rw [if_pos (by simp only [decide_eq_true_eq]; omega)]
        rw [List.cons_eq_cons]
        exact ⟨rfl, ih (n + 1) _ _⟩

/-- Claim C8: a stop requested during cycle `k` is observed only at the
cycle boundary — the loop run with the flag raised after cycle `k`
produces exactly the unstopped run's records for cycles `≤ k` (so no
record for cycle `k + 1` or later is ever created, and the in-flight
cycle `k` is unaffected by the flag); every record the loop leaves
behind is in a terminal status; and `request_stop` is idempotent. -/
theorem claim_C8 (cfg : FixLoopConfigM) (inputs : Nat → CycleInputs)
    (originalUrl originalVerdict : String) (k : Nat) :
    ((runLoop cfg inputs (fun i => decide (k < i)) originalUrl
        originalVerdict).1
      = ((runLoop cfg inputs (fun _ => false) originalUrl
          originalVerdict).1).filter (fun r => decide (r.cycleNumber ≤ k)))
    ∧ (∀ r ∈ (runLoop cfg inputs (fun i => decide (k < i)) originalUrl
          originalVerdict).1,
        r.cycleNumber ≤ k ∧ r.status ∈ terminalCycleStatuses)
    ∧ (∀ s : StopState, request_stop (request_stop s) = request_stop s) := by
  refine ⟨runFrom_stopFlag_filter cfg inputs originalUrl k cfg.maxCycles 1 []
      originalVerdict,
    fun r hr => ⟨?_, ?_⟩, fun s => rfl⟩
  · have h := runFrom_stopFlag_filter cfg inputs originalUrl k cfg.maxCycles 1
      [] originalVerdict
    unfold runLoop at hr
    rw [h] at hr
    have := (List.mem_filter.mp hr).2
    simpa using this
  · exact runFrom_records_terminal cfg inputs _ originalUrl cfg.maxCycles 1 []
      originalVerdict r hr

/-- Claim C8 witness: the boundary property applied to a concrete
3-cycle loop stopped during cycle 1, together with terminality of the
in-flight cycle's record. -/
theorem claim_C8_witness :
    ((runLoop sampleCfg (fun _ => cycleInputsRescanIncomplete)
        (fun i => decide (1 < i)) "https://app.example.com" "NO-GO").1
      = ((runLoop sampleCfg (fun _ => cycleInputsRescanIncomplete)
          (fun _ => false) "https://app.example.com" "NO-GO").1).filter
            (fun r => decide (r.cycleNumber ≤ 1)))
    ∧ ((runCycle sampleCfg 1 [] "NO-GO" cycleInputsRescanIncomplete
        "https://app.example.com").record.cycleNumber ≤ 1
      ∧ (runCycle sampleCfg 1 [] "NO-GO" cycleInputsRescanIncomplete
          "https://app.example.com").record.status ∈ terminalCycleStatuses) :=
  ⟨(claim_C8 sampleCfg (fun _ => cycleInputsRescanIncomplete)
      "https://app.example.com" "NO-GO" 1).1,
    (claim_C8 sampleCfg (fun _ => cycleInputsRescanIncomplete)
      "https://app.example.com" "NO-GO" 1).2.1 _ (by decide)⟩

/-- Starting a cycle with an empty `previous_findings` leaves it empty:
the only update sets it to `extract_findings_from_scan`, which always
returns `[]`. -/
theorem runCycle_newPrevFindings_nil (cfg : FixLoopConfigM) (n : Nat)
    (fv : String) (inp : CycleInputs) (u : String) :
    (runCycle cfg n [] fv inp u).newPrevFindings = [] := by
  unfold runCycle runCycleFromCommit setStatus extract_findings_from_scan
  dsimp only
  repeat' split
  all_goals rfl

/-- A cycle with empty `previous_findings` whose rescan completed
persists all three delta counts as `0`: the delta is computed over two
empty findings lists. -/
theorem runCycle_counts_zero (cfg : FixLoopConfigM) (n : Nat) (fv : String)
    (inp : CycleInputs) (u : String) (h : rescanCompleted inp) :
    (runCycle cfg n [] fv inp u).record.findingsResolved = 0
    ∧ (runCycle cfg n [] fv inp u).record.findingsNew = 0
    ∧ (runCycle cfg n [] fv inp u).record.findingsUnchanged = 0 := by
  obtain ⟨rid, srec, hrs, hst⟩ := h
  rcases inp with ⟨pe, ag, cr, dp, mu, ur, rs⟩
  simp only at hrs
  subst hrs
  cases pe
  case some e => exact ⟨rfl, rfl, rfl⟩
  case none =>
  cases ag
  case notInstalled m => exact ⟨rfl, rfl, rfl⟩
  case authError m => exact ⟨rfl, rfl, rfl⟩
  case result r =>
  unfold runCycle runCycleFromCommit setStatus
  dsimp only
  repeat' split
  all_goals first
    | exact ⟨rfl, rfl, rfl⟩
    | (exact absurd (show (srec.status == "completed") = true by
          rw [hst]; rfl)
        (by assumption))

/-- Loop invariant: `previous_findings` is always empty, so every cycle
whose rescan completed persists zero delta counts. -/
theorem runFrom_counts_zero (cfg : FixLoopConfigM)
    (inputs : Nat → CycleInputs) (stopFlag : Nat → Bool) (u : String) :
    ∀ fuel n fv r,
      r ∈ (runFrom cfg inputs stopFlag u n fuel [] fv).1 →
      rescanCompleted (inputs r.cycleNumber) →
      r.findingsResolved = 0 ∧ r.findingsNew = 0 ∧ r.findingsUnchanged = 0 := by
  intro fuel
  induction fuel with
  | zero =>
    intro n fv r hr
    rw [runFrom_zero] at hr
    exact absurd hr (List.not_mem_nil r)
  | succ f ih =>
    intro n fv r hr hrc
    by_cases hs : stopFlag n = true
    · rw [runFrom_succ_stop cfg inputs stopFlag u n f [] fv hs] at hr
      exact absurd hr (List.not_mem_nil r)
    · rw [Bool.not_eq_true] at hs
      rw [runFrom_succ_go cfg inputs stopFlag u n f [] fv hs] at hr
      cases hex : (runCycle cfg n [] fv (inputs n) u).exit
      all_goals rw [hex] at hr
      · rw [List.mem_singleton] at hr
        subst hr
        rw [runCycle_record_cycleNumber] at hrc
        exact runCycle_counts_zero cfg n fv (inputs n) u hrc
      · rw [List.mem_singleton] at hr
        subst hr
        rw [runCycle_record_cycleNumber] at hrc
        exact runCycle_counts_zero cfg n fv (inputs n) u hrc
      · rw [List.mem_cons] at hr
        rcases hr with hr | hr
        · subst hr
          rw [runCycle_record_cycleNumber] at hrc
          exact runCycle_counts_zero cfg n fv (inputs n) u hrc
        · rw [runCycle_newPrevFindings_nil] at hr
          exact ih (n + 1) _ r hr hrc

/-- Claim C10: the orchestrator's findings extraction always returns the
empty list, so the delta of every cycle is computed over two empty
findings lists and every cycle with a completed rescan persists
`findings_resolved = findings_new = findings_unchanged = 0`, whatever
findings the rescan actually reported. -/
theorem claim_C10 (cfg : FixLoopConfigM) (inputs : Nat → CycleInputs)
    (stopFlag : Nat → Bool) (originalUrl originalVerdict : String) :
    (∀ s : ScanRecM, extract_findings_from_scan s = [])
    ∧ ∀ r ∈ (runLoop cfg inputs stopFlag originalUrl originalVerdict).1,
        rescanCompleted (inputs r.cycleNumber) →
        r.findingsResolved = 0 ∧ r.findingsNew = 0
          ∧ r.findingsUnchanged = 0 :=
  ⟨fun _ => rfl,
    fun r hr hrc => runFrom_counts_zero cfg inputs stopFlag originalUrl
      cfg.maxCycles 1 originalVerdict r hr hrc⟩

/-- Claim C10 witness: the first cycle of a concrete loop whose rescan
completed (reporting 3 findings) still persists all-zero delta counts. -/
theorem claim_C10_witness :
    sampleBudgetFirstRecord.findingsResolved = 0
    ∧ sampleBudgetFirstRecord.findingsNew = 0
    ∧ sampleBudgetFirstRecord.findingsUnchanged = 0 :=
  (claim_C10 sampleCfg (fun _ => cycleInputsBudget) (fun _ => false)
      "https://app.example.com" "NO-GO").2 sampleBudgetFirstRecord
    (by decide) ⟨"rescan-2", rescanRowCompleted, rfl, rfl⟩

/-- Claim C4: for a cycle whose rescan completes with verdict `v`, the
loop breaks after that cycle iff `stop_on_verdict` is not `"never"` and
either `v` equals it, or it is `"GO_WITH_CONDITIONS"` and `v` is `"GO"`;
otherwise the loop continues.  In particular, with
`stop_on_verdict = "GO"` a `GO_WITH_CONDITIONS` verdict does not stop
the loop, and with `stop_on_verdict = "GO_WITH_CONDITIONS"` a cycle-1
verdict of `GO` stops the loop after exactly one cycle. -/
theorem claim_C4 (cfg : FixLoopConfigM) (n : Nat) (prev : List Finding)
    (fv : String) (inp : CycleInputs) (originalUrl : String)
    (r : ClaudeCodeResultM) (rid : String) (srec : ScanRecM) (v : String)
    (hprep : inp.prepareException = none)
    (hagent : inp.agent = AgentOutcome.result r)
    (hstatus : r.status = "success" ∨ r.status = "budget_exceeded")
    (hdep1 : (handleDeploy cfg inp originalUrl).status ≠ "deploy_failed")
    (hdep2 : (handleDeploy cfg inp originalUrl).status ≠ "failed")
    (hrescan : inp.rescan = RescanOutcome.returned rid (some srec))
    (hcompleted : srec.status = "completed")
    (hverdict : srec.verdict = some v) :
    ((runCycle cfg n prev fv inp originalUrl).exit = CycleExit.breakOut
      ↔ (cfg.stopOnVerdict ≠ "never"
          ∧ (v = cfg.stopOnVerdict
            ∨ (cfg.stopOnVerdict = "GO_WITH_CONDITIONS" ∧ v = "GO"))))
    ∧ ((runCycle cfg n prev fv inp originalUrl).exit = CycleExit.nextCycle
      ↔ ¬(cfg.stopOnVerdict ≠ "never"
          ∧ (v = cfg.stopOnVerdict
            ∨ (cfg.stopOnVerdict = "GO_WITH_CONDITIONS" ∧ v = "GO"))))
    ∧ (runCycle sampleCfg 1 [] "NO-GO" cycleInputsVerdictGWC
        "https://app.example.com").exit = CycleExit.nextCycle
    ∧ (runLoop cfgStopGWC (fun _ => cycleInputsVerdictGO) (fun _ => false)
        "https://app.example.com" "NO-GO").1.length = 1
    ∧ (runLoop cfgStopGWC (fun _ => cycleInputsVerdictGO) (fun _ => false)
        "https://app.example.com" "NO-GO").2 = LoopExit.brokeOut := by
  rcases inp with ⟨pe, ag, cr, dp, mu, ur, rs⟩
  dsimp only at hprep hagent hrescan
  subst hprep
  subst hagent
  subst hrescan
  have hd : ((handleDeploy cfg
        ⟨none, AgentOutcome.result r, cr, dp, mu, ur,
          RescanOutcome.returned rid (some srec)⟩ originalUrl).status
          == "deploy_failed"
      || (handleDeploy cfg
        ⟨none, AgentOutcome.result r, cr, dp, mu, ur,
          RescanOutcome.returned rid (some srec)⟩ originalUrl).status
          == "failed") = false := by
    rw [Bool.or_eq_false_iff]
    exact ⟨beq_eq_false_iff_ne.mpr hdep1, beq_eq_false_iff_ne.mpr hdep2⟩
  have key : (runCycle cfg n prev fv
      ⟨none, AgentOutcome.result r, cr, dp, mu, ur,
        RescanOutcome.returned rid (some srec)⟩ originalUrl).exit
      = (if stopConditionMet cfg.stopOnVerdict v then CycleExit.breakOut
        else CycleExit.nextCycle) := by
    unfold runCycle runCycleFromCommit setStatus
    dsimp only
    rcases hstatus with hs | hs
    · simp only [hs, hd,
        show (("success" : String) == "budget_exceeded") = false from rfl,
        show (!(("success" : String) == "success")) = false from rfl,
        Bool.false_eq_true, if_false, hcompleted,
        show (("completed" : String) == "completed") = true from rfl,
        if_true, hverdict, Option.getD_some]
      split <;> rfl
    · simp only [hs, hd,
        show (("budget_exceeded" : String) == "budget_exceeded") = true
          from rfl,
        if_true, Bool.false_eq_true, if_false, hcompleted,
        show (("completed" : String) == "completed") = true from rfl,
        hverdict, Option.getD_some]
      split <;> rfl
  refine ⟨?_, ?_, by decide, by decide, by decide⟩
  · rw [key]
    by_cases hm : stopConditionMet cfg.stopOnVerdict v = true
    · rw [if_pos hm]
      exact iff_of_true rfl ((stopConditionMet_iff _ _).mp hm)
    · rw [if_neg hm]
      refine iff_of_false (fun hc => CycleExit.noConfusion hc) ?_
      intro hP
      exact hm ((stopConditionMet_iff _ _).mpr hP)
  · rw [key]
    by_cases hm : stopConditionMet cfg.stopOnVerdict v = true
    · rw [if_pos hm]
      refine iff_of_false (fun hc => CycleExit.noConfusion hc) ?_
      intro hn
      exact hn ((stopConditionMet_iff _ _).mp hm)
    · rw [if_neg hm]
      exact iff_of_true rfl (fun hP => hm ((stopConditionMet_iff _ _).mpr hP))

/-- Claim C4 witness: the stop-condition characterization applied at a
concrete cycle whose rescan completed with verdict `GO` under
`stop_on_verdict = "GO"`. -/
theorem claim_C4_witness :
    (runCycle sampleCfg 1 [] "NO-GO" cycleInputsVerdictGO
        "https://app.example.com").exit = CycleExit.breakOut
      ↔ (sampleCfg.stopOnVerdict ≠ "never"
          ∧ ("GO" = sampleCfg.stopOnVerdict
            ∨ (sampleCfg.stopOnVerdict = "GO_WITH_CONDITIONS"
              ∧ "GO" = "GO"))) :=
  (claim_C4 sampleCfg 1 [] "NO-GO" cycleInputsVerdictGO
    "https://app.example.com" ⟨"success", 2, none⟩ "rescan-3" rescanRowGo
    "GO" rfl rfl (Or.inl rfl) (by decide) (by decide) rfl rfl rfl).1

end GoNoGo
